import Mathlib

/-!
Shallow embedding of the real-time relay subsystem of keyur7523/collabcanvas:
the JWT helpers in `src/server/services/auth.py`, the websocket adapter and
endpoint in `src/server/websocket/yjs_server.py`, and (modelled from the spec)
the room registry of the websocket server the endpoint delegates to.
-/

namespace CollabCanvas

/-! ## JWT model (`src/server/services/auth.py`)

The `jose` JWT library is abstracted: a token is either a signed payload
(carrying the key and algorithm it was signed with) or a malformed string.
`jwt_decode` succeeds exactly when the key and algorithm match and the token
is not expired (`exp < now` is the library's expiry test, zero leeway), in
which case it returns the stored payload; `verify_token` in `auth.py` maps
every decode failure (`JWTError`) to `None`. -/

/-- The JWT claims used by `auth.py`: `sub`, `exp` (seconds), `type`.
`sub` and `type` are optional because `payload.get` returns `None` when the
claim is absent. -/
structure JWTPayload where
  sub : Option String
  exp : Nat
  type : Option String
deriving DecidableEq, Repr

/-- A wire token: either a payload signed under a key and algorithm, or a
malformed string that no decode accepts. -/
inductive JWTToken where
  | signed (payload : JWTPayload) (key : String) (alg : String)
  | malformed (raw : String)
deriving DecidableEq, Repr

/-- The settings consumed by `auth.py`, from `src/server/config.py`. -/
structure JWTSettings where
  secret_key : String
  jwt_algorithm : String
  access_token_expire_minutes : Nat
  refresh_token_expire_days : Nat
deriving DecidableEq, Repr

/-- `jwt.encode(payload, key, algorithm=alg)`. -/
def jwt_encode (payload : JWTPayload) (key : String) (alg : String) : JWTToken :=
  JWTToken.signed payload key alg

/-- `jwt.decode(token, key, algorithms=[alg])` at time `now`: `none` models a
raised `JWTError` (malformed token, wrong key, wrong algorithm, or expired). -/
def jwt_decode (token : JWTToken) (key : String) (alg : String) (now : Nat) :
    Option JWTPayload :=
  match token with
  | JWTToken.malformed _ => none
  | JWTToken.signed p k a =>
      if k = key ∧ a = alg ∧ ¬ p.exp < now then some p else none

/-- `create_access_token(user_id)` called at time `now` (`auth.py` lines 10-18):
payload `{sub: user_id, exp: now + minutes*60, type: "access"}` signed with the
configured secret key and algorithm. -/
def create_access_token (s : JWTSettings) (user_id : String) (now : Nat) : JWTToken :=
  jwt_encode
    { sub := some user_id
      exp := now + s.access_token_expire_minutes * 60
      type := some "access" }
    s.secret_key s.jwt_algorithm

/-- `create_refresh_token(user_id)` called at time `now` (`auth.py` lines 21-29). -/
def create_refresh_token (s : JWTSettings) (user_id : String) (now : Nat) : JWTToken :=
  jwt_encode
    { sub := some user_id
      exp := now + s.refresh_token_expire_days * 86400
      type := some "refresh" }
    s.secret_key s.jwt_algorithm

/-- `verify_token(token, token_type)` at time `now` (`auth.py` lines 32-40):
decode, return `None` on `JWTError` or when the `type` claim differs from
`token_type`, else return the `sub` claim. -/
def verify_token (s : JWTSettings) (token : JWTToken) (token_type : String)
    (now : Nat) : Option String :=
  match jwt_decode token s.secret_key s.jwt_algorithm now with
  | none => none
  | some payload =>
      if payload.type ≠ some token_type then none else payload.sub

/-! ## Exceptions of the websocket layer

The exception classes distinguished by `yjs_server.py`: FastAPI's
`WebSocketDisconnect`, `RuntimeError`, and any other `Exception`. -/

/-- Exceptions distinguished by `yjs_server.py`. -/
inductive Exc where
  | wsDisconnect
  | runtimeError (msg : String)
  | otherExc (msg : String)
deriving DecidableEq, Repr

/-! ## `WebSocketAdapter` (`yjs_server.py` lines 28-62)

The adapter wraps a FastAPI websocket. Its mutable state is the `_closed`
flag (plus the immutable room name). The behaviour of the underlying
transport is an input to each operation: a `RecvEvent` says what
`websocket.receive_bytes()` did on one call (returned bytes, raised
`WebSocketDisconnect`, or raised some other exception), and a send event
says what `websocket.send_bytes(data)` did. -/

/-- State of one `WebSocketAdapter` instance (`__init__`, lines 31-34). -/
structure WSAdapterState where
  room_name : String
  closed : Bool
deriving DecidableEq, Repr

namespace WebSocketAdapter

/-- `WebSocketAdapter(websocket, room_name)`: `_closed` starts `False`. -/
def init (room_name : String) : WSAdapterState :=
  { room_name := room_name, closed := false }

/-- The `path` property (lines 36-38). -/
def path (st : WSAdapterState) : String :=
  st.room_name

/-- What one call to `websocket.receive_bytes()` did. `failure` is any raised
exception other than `WebSocketDisconnect`. -/
inductive RecvEvent where
  | bytes (data : List Nat)
  | disconnect
  | failure (msg : String)
deriving DecidableEq, Repr

/-- `recv` (lines 40-45): return the received bytes; on `WebSocketDisconnect`
set `_closed` and re-raise; any other exception propagates untouched. -/
def recv (st : WSAdapterState) (ev : RecvEvent) :
    WSAdapterState × Except Exc (List Nat) :=
  match ev with
  | RecvEvent.bytes d => (st, Except.ok d)
  | RecvEvent.disconnect => ({ st with closed := true }, Except.error Exc.wsDisconnect)
  | RecvEvent.failure m => (st, Except.error (Exc.otherExc m))

/-- `send` (lines 47-49): the first component counts calls made to
`websocket.send_bytes` (0 when `_closed`, else exactly 1); the second is the
outcome (`sendEv` is what that one transmission did). -/
def send (st : WSAdapterState) (_data : List Nat) (sendEv : Except Exc Unit) :
    Nat × Except Exc Unit :=
  if st.closed then (0, Except.ok ())
  else
    match sendEv with
    | Except.ok _ => (1, Except.ok ())
    | Except.error e => (1, Except.error e)

/-- How one `__anext__` call (lines 54-62) ends: yield the received bytes,
raise `StopAsyncIteration` (clean end of the async-for sequence), or raise
some other exception out of the iteration. -/
inductive AnextOutcome where
  | yield (data : List Nat)
  | stopIteration
  | raised (e : Exc)
deriving DecidableEq, Repr

/-- `__anext__` (lines 54-62): return the bytes; on `WebSocketDisconnect` set
`_closed` and raise `StopAsyncIteration`; on any other exception raise
`StopAsyncIteration` without touching `_closed`. -/
def anext (st : WSAdapterState) (ev : RecvEvent) : WSAdapterState × AnextOutcome :=
  match ev with
  | RecvEvent.bytes d => (st, AnextOutcome.yield d)
  | RecvEvent.disconnect => ({ st with closed := true }, AnextOutcome.stopIteration)
  | RecvEvent.failure _ => (st, AnextOutcome.stopIteration)

/-- How iterating the adapter (`async for`, i.e. repeated `__anext__`) ends:
`cleanStop` is `StopAsyncIteration` (normal sequence termination),
`raisedEnd` an escaping exception, `exhausted` means the scripted transport
events ran out with the iteration still live. -/
inductive IterEnd where
  | cleanStop
  | raisedEnd (e : Exc)
  | exhausted
deriving DecidableEq, Repr

/-- `true` exactly on `raisedEnd`: the iteration ended by raising an error. -/
def IterEnd.isRaised : IterEnd → Bool
  | IterEnd.raisedEnd _ => true
  | _ => false

/-- Iterate the adapter over a script of transport events: the messages
yielded, how the iteration ended, and the final adapter state. -/
def iterate (st : WSAdapterState) :
    List RecvEvent → List (List Nat) × IterEnd × WSAdapterState
  | [] => ([], IterEnd.exhausted, st)
  | ev :: evs =>
      match anext st ev with
      | (st', AnextOutcome.yield d) =>
          let r := iterate st' evs
          (d :: r.1, r.2.1, r.2.2)
      | (st', AnextOutcome.stopIteration) => ([], IterEnd.cleanStop, st')
      | (st', AnextOutcome.raised e) => ([], IterEnd.raisedEnd e, st')

/-- One adapter operation, with the transport behaviour it observed. -/
inductive AdapterOp where
  | recvOp (ev : RecvEvent)
  | anextOp (ev : RecvEvent)
  | sendOp (data : List Nat) (sendEv : Except Exc Unit)

/-- `true` when the operation is a receive that observed a peer disconnect. -/
def AdapterOp.isDisconnectReceive : AdapterOp → Bool
  | AdapterOp.recvOp RecvEvent.disconnect => true
  | AdapterOp.anextOp RecvEvent.disconnect => true
  | _ => false

/-- The state after one adapter operation (`send` never mutates state). -/
def applyOp (st : WSAdapterState) : AdapterOp → WSAdapterState
  | AdapterOp.recvOp ev => (recv st ev).1
  | AdapterOp.anextOp ev => (anext st ev).1
  | AdapterOp.sendOp _ _ => st

/-- The state after a sequence of adapter operations. -/
def runOps (st : WSAdapterState) : List AdapterOp → WSAdapterState
  | [] => st
  | op :: ops => runOps (applyOp st op) ops

end WebSocketAdapter

/-! ## `authenticate_websocket` and `websocket_endpoint`
(`yjs_server.py` lines 65-125)

Python truthiness of an optional string: `None` and `""` are falsy. The
endpoint's interactions with the outside world (`verify_token`, `accept`,
`websocket_server.serve`, `websocket.close`) are supplied as an environment;
the endpoint itself is the deterministic control flow of lines 92-125,
returning the list of transport/relay actions it performed and the exception
escaping it, if any. -/

/-- Python truthiness of a `str`: empty is falsy. -/
def truthyStr (s : String) : Bool :=
  s ≠ ""

/-- Python truthiness of an `Optional[str]`: `None` and `""` are falsy. -/
def truthyOptStr : Option String → Bool
  | none => false
  | some s => truthyStr s

/-- `authenticate_websocket(token)` (lines 65-72), parametric in the
`verify_token` call it makes: `if not token: return None` then
`return verify_token(token)`. -/
def authenticate_websocket (verify : String → Option String)
    (token : Option String) : Option String :=
  match token with
  | none => none
  | some t => if truthyStr t then verify t else none

/-- Externally visible actions of one `websocket_endpoint` run: accepting the
transport, handing the adapter to `websocket_server.serve`, and calling
`websocket.close(code)`. -/
inductive WSAction where
  | accept
  | serve (room : String)
  | close (code : Nat)
deriving DecidableEq, Repr

/-- Environment of one `websocket_endpoint` run: the `verify_token` function
and what each awaited call would do (`accept`, `serve`, and `close` at a
given code). -/
structure WSEnv where
  verify : String → Option String
  acceptResult : Except Exc Unit
  serveResult : Except Exc Unit
  closeResult : Nat → Except Exc Unit

/-- A `websocket.close(code)` wrapped in `try: ... except Exception: pass`
(lines 116-119 and 122-125): the attempt is recorded, any error from the
close itself is swallowed. -/
def guardedClose (env : WSEnv) (code : Nat) : List WSAction × Option Exc :=
  match env.closeResult code with
  | Except.ok _ => ([WSAction.close code], none)
  | Except.error _ => ([WSAction.close code], none)

/-- The `except` clauses of `websocket_endpoint` (lines 112-125):
`WebSocketDisconnect` is only logged; `RuntimeError` and any other
`Exception` attempt a guarded `close(1011)`. -/
def endpointHandler (env : WSEnv) (e : Exc) : List WSAction × Option Exc :=
  match e with
  | Exc.wsDisconnect => ([], none)
  | Exc.runtimeError _ => guardedClose env 1011
  | Exc.otherExc _ => guardedClose env 1011

/-- `websocket_endpoint(websocket, room_name, token)` (lines 75-125): returns
the actions performed and the exception escaping the endpoint, if any. The
`close(1008)` on the rejection path (line 96) is outside the `try` block, so
an error raised by that close escapes; everything inside the `try` is routed
through `endpointHandler`. -/
def websocket_endpoint (env : WSEnv) (room_name : String)
    (token : Option String) : List WSAction × Option Exc :=
  let user_id := authenticate_websocket env.verify token
  if truthyOptStr token && ! truthyOptStr user_id then
    match env.closeResult 1008 with
    | Except.ok _ => ([WSAction.close 1008], none)
    | Except.error e => ([WSAction.close 1008], some e)
  else
    match env.acceptResult with
    | Except.error e => endpointHandler env e
    | Except.ok _ =>
        match env.serveResult with
        | Except.error e =>
            let r := endpointHandler env e
            (WSAction.accept :: WSAction.serve room_name :: r.1, r.2)
        | Except.ok _ => ([WSAction.accept, WSAction.serve room_name], none)

/-! ## Room registry of the websocket server

`yjs_server.py` line 22 constructs the process-wide server as
`WebsocketServer(auto_clean_rooms=True)`. The registry itself lives in the
`pycrdt` websocket package, outside this repository's sources. -/

/-- `auto_clean_rooms=True`, the flag the process-wide `websocket_server` is
constructed with (`yjs_server.py` line 22). -/
def websocket_server_auto_clean_rooms : Bool :=
  true

/-- Modelled from the spec: the Room Registry (the `WebsocketServer`'s
room map, not under `src/`) — rooms keyed by name, each holding its set of
member connections; created lazily on first join. -/
structure RoomRegistry where
  rooms : List (String × List Nat)
deriving DecidableEq, Repr

/-- The registry at process start: no rooms. -/
def RoomRegistry.empty : RoomRegistry :=
  { rooms := [] }

/-- One membership operation on the registry: a connection joins or leaves a
room. -/
inductive RegOp where
  | joinRoom (room : String) (conn : Nat)
  | leaveRoom (room : String) (conn : Nat)
deriving DecidableEq, Repr

/-- Modelled from the spec: `join(roomName, connection)` — create the room if
absent, add the connection to its member set (no duplicates). -/
def RoomRegistry.joinRoom (reg : RoomRegistry) (room : String) (c : Nat) :
    RoomRegistry :=
  if reg.rooms.any (fun p => p.1 = room) then
    { rooms :=
        reg.rooms.map (fun p =>
          if p.1 = room then (p.1, if c ∈ p.2 then p.2 else p.2 ++ [c]) else p) }
  else
    { rooms := reg.rooms ++ [(room, [c])] }

/-- Modelled from the spec: `leave(roomName, connection)` — remove the
connection from the room's member set; when `autoClean` is set and the member
set becomes empty, the room is deleted atomically with the removal. -/
def RoomRegistry.leaveRoom (autoClean : Bool) (reg : RoomRegistry)
    (room : String) (c : Nat) : RoomRegistry :=
  { rooms :=
      reg.rooms.filterMap (fun p =>
        if p.1 = room then
          if autoClean && (p.2.filter (fun x => x ≠ c)).isEmpty then none
          else some (p.1, p.2.filter (fun x => x ≠ c))
        else some p) }

/-- Apply one membership operation under the given `auto_clean_rooms`
setting. -/
def RoomRegistry.applyRegOp (autoClean : Bool) (reg : RoomRegistry) :
    RegOp → RoomRegistry
  | RegOp.joinRoom room c => reg.joinRoom room c
  | RegOp.leaveRoom room c => RoomRegistry.leaveRoom autoClean reg room c

/-- Apply a sequence of membership operations. -/
def RoomRegistry.runRegOps (autoClean : Bool) (reg : RoomRegistry) :
    List RegOp → RoomRegistry
  | [] => reg
  | op :: ops => RoomRegistry.runRegOps autoClean (reg.applyRegOp autoClean op) ops

/-- `true` when no room in the registry has an empty member set. -/
def RoomRegistry.noEmptyRooms (reg : RoomRegistry) : Bool :=
  reg.rooms.all (fun p => ! p.2.isEmpty)

/-! ## Concrete environments and transcription facts used by witnesses -/

/-- The names defined in the body of `class WebSocketAdapter` (`yjs_server.py`
lines 28-62): `__init__`, the `path` property, `recv`, `send`, `__aiter__`
and `__anext__` — transcribed from the class body. -/
def WebSocketAdapter.definedMethods : List String :=
  ["__init__", "path", "recv", "send", "__aiter__", "__anext__"]

/-- An endpoint environment whose verifier rejects every token and whose
transport calls all succeed. -/
def envRejectAll : WSEnv :=
  { verify := fun _ => none
    acceptResult := Except.ok ()
    serveResult := Except.ok ()
    closeResult := fun _ => Except.ok () }

/-- An endpoint environment whose verifier accepts every token and whose
transport calls all succeed. -/
def envAccepting : WSEnv :=
  { verify := fun _ => some "user-1"
    acceptResult := Except.ok ()
    serveResult := Except.ok ()
    closeResult := fun _ => Except.ok () }

/-- An endpoint environment where `serve` raises a `RuntimeError` and the
cleanup `close` itself raises (an already-closed transport). -/
def envServeFails : WSEnv :=
  { verify := fun _ => some "user-1"
    acceptResult := Except.ok ()
    serveResult := Except.error (Exc.runtimeError "boom")
    closeResult := fun _ => Except.error (Exc.otherExc "already closed") }

/-- Settings with the defaults of `src/server/config.py`. -/
def defaultSettings : JWTSettings :=
  { secret_key := "dev-secret-key-change-in-production"
    jwt_algorithm := "HS256"
    access_token_expire_minutes := 30
    refresh_token_expire_days := 7 }

/-! ## Helper lemmas -/

/-- Iterating the adapter never ends with a raised error: `__anext__` maps
every receive exception to `StopAsyncIteration`. -/
theorem iterate_isRaised_false (evs : List WebSocketAdapter.RecvEvent)
    (st : WSAdapterState) :
    ((WebSocketAdapter.iterate st evs).2.1).isRaised = false := by
  induction evs generalizing st with
  | nil => rfl
  | cons ev evs ih =>
      cases ev with
      | bytes d => exact ih st
      | disconnect => rfl
      | failure m => rfl

/-- The `_closed` flag survives any single adapter operation. -/
theorem applyOp_closed_mono (st : WSAdapterState)
    (op : WebSocketAdapter.AdapterOp) (h : st.closed = true) :
    (WebSocketAdapter.applyOp st op).closed = true := by
  cases op with
  | recvOp ev =>
      cases ev <;> simp [WebSocketAdapter.applyOp, WebSocketAdapter.recv, h]
  | anextOp ev =>
      cases ev <;> simp [WebSocketAdapter.applyOp, WebSocketAdapter.anext, h]
  | sendOp data sendEv => exact h

/-- The `_closed` flag survives any sequence of adapter operations. -/
theorem runOps_closed_mono (ops : List WebSocketAdapter.AdapterOp)
    (st : WSAdapterState) (h : st.closed = true) :
    (WebSocketAdapter.runOps st ops).closed = true := by
  induction ops generalizing st with
  | nil => exact h
  | cons op ops ih =>
      exact ih _ (applyOp_closed_mono st op h)

/-- `join` preserves "no room is empty". -/
theorem noEmptyRooms_joinRoom (reg : RoomRegistry) (room : String) (c : Nat)
    (h : reg.noEmptyRooms = true) :
    (reg.joinRoom room c).noEmptyRooms = true := by
  unfold RoomRegistry.joinRoom
  rw [RoomRegistry.noEmptyRooms, List.all_eq_true] at h ⊢
  by_cases hany : reg.rooms.any (fun p => p.1 = room)
  · simp only [hany, if_pos]
    intro p hp
    rcases List.mem_map.mp hp with ⟨q, hq, hpq⟩
    by_cases hm : q.1 = room
    · subst hpq
      by_cases hc : c ∈ q.2 <;> simp [hm, hc]
      · simpa using h q hq

    · subst hpq
      simp only [hm, if_neg, if_false]
      exact h q hq
  · simp only [hany, if_neg, if_false]
    intro p hp
    rcases List.mem_append.mp hp with hp | hp
    · exact h p hp
    · simp at hp
      subst hp
      simp

/-- `leave` under `auto_clean_rooms = true` preserves "no room is empty". -/
theorem noEmptyRooms_leaveRoom (reg : RoomRegistry) (room : String) (c : Nat)
    (h : reg.noEmptyRooms = true) :
    (RoomRegistry.leaveRoom true reg room c).noEmptyRooms = true := by
  unfold RoomRegistry.leaveRoom
  rw [RoomRegistry.noEmptyRooms, List.all_eq_true] at h ⊢
  intro p hp
  rcases List.mem_filterMap.mp hp with ⟨q, hq, hpq⟩
  split at hpq
  · split at hpq
    · exact Option.noConfusion hpq
    · rename_i he
      rw [Option.some_inj] at hpq
      subst hpq
      simp only [Bool.true_and, Bool.not_eq_true] at he
      simpa using he
  · rw [Option.some_inj] at hpq
    subst hpq
    exact h q hq

/-- Any operation under `auto_clean_rooms = true` preserves "no room is
empty". -/
theorem noEmptyRooms_applyRegOp (reg : RoomRegistry) (op : RegOp)
    (h : reg.noEmptyRooms = true) :
    (reg.applyRegOp true op).noEmptyRooms = true := by
  cases op with
  | joinRoom room c => exact noEmptyRooms_joinRoom reg room c h
  | leaveRoom room c => exact noEmptyRooms_leaveRoom reg room c h

/-- Any sequence of operations under `auto_clean_rooms = true` preserves "no
room is empty". -/
theorem noEmptyRooms_runRegOps (ops : List RegOp) (reg : RoomRegistry)
    (h : reg.noEmptyRooms = true) :
    (RoomRegistry.runRegOps true reg ops).noEmptyRooms = true := by
  induction ops generalizing reg with
  | nil => exact h
  | cons op ops ih =>
      exact ih _ (noEmptyRooms_applyRegOp reg op h)

/-! ## Claim theorems -/

/-- Claim C1: a connection presenting a credential that token verification
rejects is closed with policy-violation code 1008 and the endpoint returns
before accepting the transport or handing the adapter to the relay server —
the action trace is exactly the 1008 close, with no accept and no serve, so
the connection never becomes active and never joins a room. -/
theorem auth_reject_closes_1008_before_serve (env : WSEnv) (room t : String)
    (ht : truthyStr t = true) (hv : env.verify t = none) :
    (websocket_endpoint env room (some t)).1 = [WSAction.close 1008]
    ∧ WSAction.accept ∉ (websocket_endpoint env room (some t)).1
    ∧ (∀ r, WSAction.serve r ∉ (websocket_endpoint env room (some t)).1)
    ∧ (env.closeResult 1008 = Except.ok () →
        websocket_endpoint env room (some t) = ([WSAction.close 1008], none)) := by
  have hcond : (truthyOptStr (some t)
      && ! truthyOptStr (authenticate_websocket env.verify (some t))) = true := by
    simp [truthyOptStr, authenticate_websocket, ht, hv]
  cases hc : env.closeResult 1008 with
  | ok u =>
      cases u
      simp [websocket_endpoint, hcond, hc]
  | error e =>
      simp [websocket_endpoint, hcond, hc]

/-- Claim C2 counterexample: a receive that fails abnormally (an exception
other than a peer disconnect) ends the adapter's inbound iteration with
`StopAsyncIteration` — clean sequence termination, not an error — because
`__anext__` catches every exception and raises `StopAsyncIteration`. -/
theorem abnormal_receive_ends_iteration_cleanly_cex :
    WebSocketAdapter.iterate (WebSocketAdapter.init "board-1")
      [WebSocketAdapter.RecvEvent.failure "connection reset"]
      = ([], WebSocketAdapter.IterEnd.cleanStop, WebSocketAdapter.init "board-1")
    ∧ WebSocketAdapter.IterEnd.cleanStop.isRaised = false := by
  decide

/-- Claim C2 amended: iterating the adapter's inbound-message sequence
terminates the sequence cleanly (without raising an error) on a clean peer
disconnect, and also terminates it cleanly — never by raising — on any other
receive exception. -/
theorem iteration_always_terminates_cleanly (st : WSAdapterState)
    (evs : List WebSocketAdapter.RecvEvent) (m : String) :
    ((WebSocketAdapter.iterate st evs).2.1).isRaised = false
    ∧ (WebSocketAdapter.iterate st
        (WebSocketAdapter.RecvEvent.disconnect :: evs)).2.1
        = WebSocketAdapter.IterEnd.cleanStop
    ∧ (WebSocketAdapter.iterate st
        (WebSocketAdapter.RecvEvent.failure m :: evs)).2.1
        = WebSocketAdapter.IterEnd.cleanStop :=
  ⟨iterate_isRaised_false evs st, rfl, rfl⟩

/-- Claim C3: `send` on an adapter already marked closed transmits nothing
and raises nothing; on an adapter not marked closed it makes exactly one
`send_bytes` call whose outcome (success or failure) is the outcome of
`send`. -/
theorem send_on_closed_noop_else_one_transmission (st : WSAdapterState)
    (data : List Nat) (sendEv : Except Exc Unit) :
    (st.closed = true → WebSocketAdapter.send st data sendEv = (0, Except.ok ()))
    ∧ (st.closed = false →
        (WebSocketAdapter.send st data sendEv).1 = 1
        ∧ (WebSocketAdapter.send st data sendEv).2 = sendEv) := by
  constructor
  · intro h
    simp [WebSocketAdapter.send, h]
  · intro h
    cases sendEv <;> simp [WebSocketAdapter.send, h]

/-- Claim C4 counterexample: `class WebSocketAdapter` defines no `close` (or
`aclose`) method at all, so the adapter does not provide a close operation. -/
theorem adapter_defines_no_close_cex :
    (WebSocketAdapter.definedMethods.contains "close"
      || WebSocketAdapter.definedMethods.contains "aclose") = false := by
  decide

/-- Claim C4 amended: the adapter defines no close operation of its own;
the transport is closed by the endpoint, whose cleanup close attempt is
guarded so that a close that itself raises (e.g. on an already-closed
transport) produces no error and no further cleanup, and an adapter marked
closed never uses the transport again for sends. -/
theorem transport_close_guarded_not_reused (env : WSEnv) (room : String)
    (token : Option String) (m : String) (e : Exc)
    (h1 : truthyOptStr token = false)
    (h2 : env.acceptResult = Except.ok ())
    (h3 : env.serveResult = Except.error (Exc.runtimeError m))
    (h4 : env.closeResult 1011 = Except.error e) :
    websocket_endpoint env room token
      = ([WSAction.accept, WSAction.serve room, WSAction.close 1011], none)
    ∧ (∀ st data sendEv, st.closed = true →
        WebSocketAdapter.send st data sendEv = (0, Except.ok ())) := by
  constructor
  · simp [websocket_endpoint, h1, h2, h3, endpointHandler, guardedClose, h4]
  · intro st data sendEv h
    simp [WebSocketAdapter.send, h]

/-- Claim C5: verifying a token freshly produced by `create_access_token`
with expected type `"access"`, before its expiry and under the same settings,
returns the original user id; likewise for `create_refresh_token` with
expected type `"refresh"`. -/
theorem token_roundtrip (s : JWTSettings) (u : String) (t tA tR : Nat)
    (hA : tA ≤ t + s.access_token_expire_minutes * 60)
    (hR : tR ≤ t + s.refresh_token_expire_days * 86400) :
    verify_token s (create_access_token s u t) "access" tA = some u
    ∧ verify_token s (create_refresh_token s u t) "refresh" tR = some u := by
  constructor
  · simp [verify_token, create_access_token, jwt_encode, jwt_decode,
      Nat.not_lt, hA]
  · simp [verify_token, create_refresh_token, jwt_encode, jwt_decode,
      Nat.not_lt, hR]

/-- Claim C6: `verify_token` is total — every decode failure (malformed,
wrong key/algorithm, expired) yields `none`, a decoded payload whose `type`
claim differs from the expected type yields `none` (in particular a refresh
token never verifies as an access token, unconditionally), and otherwise the
payload's `sub` claim is returned (`none` when absent, since the result is
exactly `payload.sub`). -/
theorem verify_token_case_analysis (s : JWTSettings) (tok : JWTToken)
    (ty : String) (now : Nat) :
    (jwt_decode tok s.secret_key s.jwt_algorithm now = none →
      verify_token s tok ty now = none)
    ∧ (∀ p, jwt_decode tok s.secret_key s.jwt_algorithm now = some p →
        p.type ≠ some ty → verify_token s tok ty now = none)
    ∧ (∀ p, jwt_decode tok s.secret_key s.jwt_algorithm now = some p →
        p.type = some ty → verify_token s tok ty now = p.sub)
    ∧ (∀ u tc, verify_token s (create_refresh_token s u tc) "access" now
        = none) := by
  refine ⟨?_, ?_, ?_, ?_⟩
  · intro hd
    simp [verify_token, hd]
  · intro p hd hty
    simp [verify_token, hd, hty]
  · intro p hd hty
    simp [verify_token, hd, hty]
  · intro u tc
    unfold verify_token create_refresh_token jwt_encode jwt_decode
    by_cases hexp : tc + s.refresh_token_expire_days * 86400 < now
    · simp [hexp]
    · simp [hexp]

/-- Claim C7: with no credential (token absent or empty), authentication
returns no identity regardless of the verifier — token verification is never
consulted — and the endpoint still admits the connection, accepting the
transport and handing the adapter to the relay server anonymously. -/
theorem anonymous_admitted (env : WSEnv) (room : String) (token : Option String)
    (htok : token = none ∨ token = some "") :
    (∀ v : String → Option String, authenticate_websocket v token = none)
    ∧ (env.acceptResult = Except.ok () → env.serveResult = Except.ok () →
        websocket_endpoint env room token
          = ([WSAction.accept, WSAction.serve room], none)) := by
  rcases htok with rfl | rfl
  · refine ⟨fun v => rfl, fun h2 h3 => ?_⟩
    simp [websocket_endpoint, truthyOptStr, h2, h3]
  · refine ⟨fun v => by simp [authenticate_websocket, truthyStr], fun h2 h3 => ?_⟩
    simp [websocket_endpoint, truthyOptStr, truthyStr, h2, h3]

/-- Claim C8: starting from the empty registry, after any sequence of joins
and leaves under the `auto_clean_rooms=True` setting the process-wide
websocket server is constructed with, no room with an empty member set is
retained. -/
theorem auto_clean_leaves_no_empty_room (ops : List RegOp) :
    (RoomRegistry.runRegOps websocket_server_auto_clean_rooms
      RoomRegistry.empty ops).noEmptyRooms = true :=
  noEmptyRooms_runRegOps ops RoomRegistry.empty rfl

/-- Claim C9: on the admitted path, no exception raised while serving the
connection (accepting, or relay serving after admission) escapes
`websocket_endpoint`: the endpoint catches it, attempts at most one
`close(1011)` on that connection, and returns normally. -/
theorem endpoint_catches_all (env : WSEnv) (room : String)
    (token : Option String)
    (hadm : truthyOptStr token = false
      ∨ truthyOptStr (authenticate_websocket env.verify token) = true) :
    (websocket_endpoint env room token).2 = none
    ∧ (websocket_endpoint env room token).1.count (WSAction.close 1011) ≤ 1 := by
  have hcond : (truthyOptStr token
      && ! truthyOptStr (authenticate_websocket env.verify token)) = false := by
    rcases hadm with h | h <;> simp [h]
  cases hacc : env.acceptResult with
  | error e =>
      cases e with
      | wsDisconnect =>
          simp [websocket_endpoint, hcond, hacc, endpointHandler]
      | runtimeError msg =>
          cases hc : env.closeResult 1011 <;>
            simp [websocket_endpoint, hcond, hacc, endpointHandler,
              guardedClose, hc]
      | otherExc msg =>
          cases hc : env.closeResult 1011 <;>
            simp [websocket_endpoint, hcond, hacc, endpointHandler,
              guardedClose, hc]
  | ok u =>
      cases u
      cases hsrv : env.serveResult with
      | error e =>
          cases e with
          | wsDisconnect =>
              simp [websocket_endpoint, hcond, hacc, hsrv, endpointHandler]
          | runtimeError msg =>
              cases hc : env.closeResult 1011 <;>
                simp [websocket_endpoint, hcond, hacc, hsrv, endpointHandler,
                  guardedClose, hc, List.count_cons]
          | otherExc msg =>
              cases hc : env.closeResult 1011 <;>
                simp [websocket_endpoint, hcond, hacc, hsrv, endpointHandler,
                  guardedClose, hc, List.count_cons]
      | ok v =>
          cases v
          simp [websocket_endpoint, hcond, hacc, hsrv, List.count_cons]

/-- Claim C10: the adapter's closed flag starts `False`, is set only by a
receive (`recv` or `__anext__`) that observes a peer disconnect, is never
reset by any operation, and once a receive has observed a disconnect every
subsequent `send` — after any further operations — transmits nothing and
raises nothing. -/
theorem closed_flag_monotone_adapter :
    (∀ room, (WebSocketAdapter.init room).closed = false)
    ∧ (∀ st op, st.closed = true →
        (WebSocketAdapter.applyOp st op).closed = true)
    ∧ (∀ st op, (WebSocketAdapter.applyOp st op).closed = true →
        st.closed = true ∨ op.isDisconnectReceive = true)
    ∧ (∀ st ops data sendEv,
        WebSocketAdapter.send
          (WebSocketAdapter.runOps
            (WebSocketAdapter.recv st WebSocketAdapter.RecvEvent.disconnect).1
            ops) data sendEv
          = (0, Except.ok ())) := by
  refine ⟨fun room => rfl, applyOp_closed_mono, ?_, ?_⟩
  · intro st op h
    cases hst : st.closed
    · right
      cases op with
      | recvOp ev =>
          cases ev <;>
            simp_all [WebSocketAdapter.applyOp, WebSocketAdapter.recv,
              WebSocketAdapter.AdapterOp.isDisconnectReceive]
      | anextOp ev =>
          cases ev <;>
            simp_all [WebSocketAdapter.applyOp, WebSocketAdapter.anext,
              WebSocketAdapter.AdapterOp.isDisconnectReceive]
      | sendOp d sendEv =>
          simp_all [WebSocketAdapter.applyOp]
    · exact Or.inl rfl
  · intro st ops data sendEv
    have h2 := runOps_closed_mono ops
      (WebSocketAdapter.recv st WebSocketAdapter.RecvEvent.disconnect).1 rfl
    simp [WebSocketAdapter.send, h2]

/-! ## Witnesses -/

/-- Witness for C1 at a concrete rejected token. -/
theorem auth_reject_closes_1008_before_serve_witness :
    truthyStr "badtoken" = true
    ∧ envRejectAll.verify "badtoken" = none
    ∧ websocket_endpoint envRejectAll "board-1" (some "badtoken")
        = ([WSAction.close 1008], none) :=
  ⟨by decide, rfl,
    (auth_reject_closes_1008_before_serve envRejectAll "board-1" "badtoken"
      (by decide) rfl).2.2.2 rfl⟩

/-- Witness for C3 on a concrete closed and a concrete open adapter. -/
theorem send_on_closed_noop_else_one_transmission_witness :
    (WSAdapterState.mk "board-1" true).closed = true
    ∧ WebSocketAdapter.send (WSAdapterState.mk "board-1" true) [7]
        (Except.error (Exc.otherExc "reset")) = (0, Except.ok ())
    ∧ (WSAdapterState.mk "board-1" false).closed = false
    ∧ (WebSocketAdapter.send (WSAdapterState.mk "board-1" false) [7]
        (Except.error (Exc.otherExc "reset"))).1 = 1 :=
  ⟨rfl,
   (send_on_closed_noop_else_one_transmission (WSAdapterState.mk "board-1" true)
      [7] (Except.error (Exc.otherExc "reset"))).1 rfl,
   rfl,
   ((send_on_closed_noop_else_one_transmission (WSAdapterState.mk "board-1" false)
      [7] (Except.error (Exc.otherExc "reset"))).2 rfl).1⟩

/-- Witness for the amended C4: serve raises, the cleanup close itself
raises, and the endpoint still returns normally after one guarded close. -/
theorem transport_close_guarded_not_reused_witness :
    truthyOptStr none = false
    ∧ envServeFails.acceptResult = Except.ok ()
    ∧ envServeFails.serveResult = Except.error (Exc.runtimeError "boom")
    ∧ envServeFails.closeResult 1011 = Except.error (Exc.otherExc "already closed")
    ∧ websocket_endpoint envServeFails "board-1" none
        = ([WSAction.accept, WSAction.serve "board-1", WSAction.close 1011],
            none) :=
  ⟨rfl, rfl, rfl, rfl,
    (transport_close_guarded_not_reused envServeFails "board-1" none "boom"
      (Exc.otherExc "already closed") rfl rfl rfl rfl).1⟩

/-- Witness for C5 with the default settings at concrete times. -/
theorem token_roundtrip_witness :
    100 ≤ 0 + defaultSettings.access_token_expire_minutes * 60
    ∧ 100 ≤ 0 + defaultSettings.refresh_token_expire_days * 86400
    ∧ verify_token defaultSettings
        (create_access_token defaultSettings "alice" 0) "access" 100
        = some "alice"
    ∧ verify_token defaultSettings
        (create_refresh_token defaultSettings "alice" 0) "refresh" 100
        = some "alice" :=
  ⟨by decide, by decide,
   (token_roundtrip defaultSettings "alice" 0 100 100 (by decide)
     (by decide)).1,
   (token_roundtrip defaultSettings "alice" 0 100 100 (by decide)
     (by decide)).2⟩

/-- Witness for C6: a malformed token verifies to `none`, a well-signed
token with a mismatched `type` claim verifies to `none`, and a concrete
refresh token does not verify as an access token. -/
theorem verify_token_case_analysis_witness :
    jwt_decode (JWTToken.malformed "garbage") defaultSettings.secret_key
        defaultSettings.jwt_algorithm 0 = none
    ∧ verify_token defaultSettings (JWTToken.malformed "garbage") "access" 0
        = none
    ∧ verify_token defaultSettings
        (JWTToken.signed ⟨some "alice", 100, some "refresh"⟩
          defaultSettings.secret_key defaultSettings.jwt_algorithm) "access" 0
        = none
    ∧ verify_token defaultSettings
        (create_refresh_token defaultSettings "alice" 0) "access" 0 = none :=
  ⟨rfl,
   (verify_token_case_analysis defaultSettings (JWTToken.malformed "garbage")
      "access" 0).1 rfl,
   (verify_token_case_analysis defaultSettings
      (JWTToken.signed ⟨some "alice", 100, some "refresh"⟩
        defaultSettings.secret_key defaultSettings.jwt_algorithm) "access" 0).2.1
      ⟨some "alice", 100, some "refresh"⟩ (by decide) (by decide),
   (verify_token_case_analysis defaultSettings (JWTToken.malformed "garbage")
      "access" 0).2.2.2 "alice" 0⟩

/-- Witness for C7: an absent token is admitted anonymously even though the
verifier would accept any token. -/
theorem anonymous_admitted_witness :
    ((none : Option String) = none ∨ (none : Option String) = some "")
    ∧ authenticate_websocket envAccepting.verify none = none
    ∧ websocket_endpoint envAccepting "board-1" none
        = ([WSAction.accept, WSAction.serve "board-1"], none) :=
  ⟨Or.inl rfl,
   (anonymous_admitted envAccepting "board-1" none (Or.inl rfl)).1
     envAccepting.verify,
   (anonymous_admitted envAccepting "board-1" none (Or.inl rfl)).2 rfl rfl⟩

/-- Witness for C9: serve raises and the cleanup close itself raises, yet
no error escapes the endpoint and close(1011) is attempted once. -/
theorem endpoint_catches_all_witness :
    truthyOptStr none = false
    ∧ (websocket_endpoint envServeFails "board-1" none).2 = none
    ∧ (websocket_endpoint envServeFails "board-1" none).1.count
        (WSAction.close 1011) ≤ 1 :=
  ⟨rfl,
   (endpoint_catches_all envServeFails "board-1" none (Or.inl rfl)).1,
   (endpoint_catches_all envServeFails "board-1" none (Or.inl rfl)).2⟩

/-- Witness for C10 on concrete adapter states and operations. -/
theorem closed_flag_monotone_adapter_witness :
    (WSAdapterState.mk "board-1" true).closed = true
    ∧ (WebSocketAdapter.applyOp (WSAdapterState.mk "board-1" true)
        (WebSocketAdapter.AdapterOp.sendOp [7] (Except.ok ()))).closed = true
    ∧ (WebSocketAdapter.applyOp (WSAdapterState.mk "board-1" false)
        (WebSocketAdapter.AdapterOp.anextOp
          WebSocketAdapter.RecvEvent.disconnect)).closed = true
    ∧ ((WSAdapterState.mk "board-1" false).closed = true
        ∨ (WebSocketAdapter.AdapterOp.anextOp
            WebSocketAdapter.RecvEvent.disconnect).isDisconnectReceive
            = true) :=
  ⟨rfl,
   closed_flag_monotone_adapter.2.1 (WSAdapterState.mk "board-1" true)
     (WebSocketAdapter.AdapterOp.sendOp [7] (Except.ok ())) rfl,
   rfl,
   closed_flag_monotone_adapter.2.2.1 (WSAdapterState.mk "board-1" false)
     (WebSocketAdapter.AdapterOp.anextOp WebSocketAdapter.RecvEvent.disconnect)
     (by decide)⟩

end CollabCanvas
